import Mathlib

/-
Verification of the Babel data-type validation and serialization semantics
implemented by the generated Python classes of
src/dropbox-v2/server-validators/python_json.babelg.py.

The generator emits, for every struct and union of a schema, a Python class
with __init__, validate, per-field properties (getter/setter/deleter),
from_dict and to_dict.  This file embeds the semantics of that generated
code: schemas are Lean data (StructDef, UnionDef), instances are explicit
slot states, and each generated method becomes a Lean function translated
line-by-line from the emitted code.

The babelapi.data_type / babel_data_types validator module and the
transformer object are not part of the repository; where their behavior is
needed it is modelled from the spec (see the doc comments marked
"Modelled from the spec").
-/

namespace Babel

/-- Error outcomes of the generated code and of the validators.
unknownKey and missingRequired are the two KeyError messages emitted by
the generated from_dict; typeError is a Python TypeError (isinstance
failure, or calling the mis-declared deleter); keyCountError is the
KeyError raised by union from_dict when a dict wire value has a key count
different from one; recursionLimit stands for exhausting the recursion
budget on nested composites. -/
inductive Err where
  | typeMismatch
  | rangeError
  | unknownKey
  | missingRequired
  | typeError
  | keyCountError
  | tagNotSet
  | recursionLimit
deriving Repr, DecidableEq

/-- Dynamically typed runtime values: JSON-compatible wire values
(null, bool, int, str, obj) together with in-memory instances of the
generated classes.  An inst carries the class name and one slot per field:
the pair of the stored value (the generated self._f, initialized to None)
and the set flag (the generated self.__has_f).  A uinst carries the class
name, the selected tag (the generated self.__tag) and the payload slots. -/
inductive Value where
  | null
  | bool (b : Bool)
  | int (n : Int)
  | str (s : String)
  | obj (kvs : List (String × Value))
  | inst (ty : String) (slots : List (String × Value × Bool))
  | uinst (ty : String) (tag : Option String) (slots : List (String × Value))

/-- Python "x is None" on a stored value. -/
def Value.isNull : Value → Bool
  | .null => true
  | _ => false

/-- Python isinstance(v, C) for a generated composite class C, as used by
the generated setters.  Inheritance is flattened into all_fields in this
embedding, so the check is by class name. -/
def Value.instOf : Value → String → Bool
  | .inst t _, c => t == c
  | .uinst t _ _, c => t == c
  | _, _ => false

/-- The four integer kinds of the schema language. -/
inductive IntKind where
  | int32
  | uint32
  | int64
  | uint64
deriving Repr, DecidableEq

/-- Modelled from the spec: the natural lower bound of each integer kind
(babelapi.data_type is not in the repository; spec section 3: unsigned
32-bit defaults to [0, 2^32-1], signed 32-bit to [-2^31, 2^31-1],
analogous for 64-bit; confirmed by src/test/test_babel_internal.py
test_int). -/
def IntKind.lo : IntKind → Int
  | .int32 => -(2 ^ 31)
  | .uint32 => 0
  | .int64 => -(2 ^ 63)
  | .uint64 => 0

/-- Modelled from the spec: the natural upper bound of each integer kind. -/
def IntKind.hi : IntKind → Int
  | .int32 => 2 ^ 31 - 1
  | .uint32 => 2 ^ 32 - 1
  | .int64 => 2 ^ 63 - 1
  | .uint64 => 2 ^ 64 - 1

/-- Modelled from the spec: an integer validator with optional min_value
and max_value defaulting to the natural range of its kind. -/
structure IntValidator where
  kind : IntKind
  min_value : Option Int
  max_value : Option Int

/-- Effective lower bound of an integer validator. -/
def IntValidator.minv (v : IntValidator) : Int := v.min_value.getD v.kind.lo

/-- Effective upper bound of an integer validator. -/
def IntValidator.maxv (v : IntValidator) : Int := v.max_value.getD v.kind.hi

/-- Modelled from the spec: integer check returns the value unchanged when
it lies within [min_value, max_value], fails with rangeError when an
integer is out of range, with typeMismatch when the runtime kind is not an
integer (spec sections 4.1 and 8; src/test/test_babel_internal.py
test_int). -/
def IntValidator.check (v : IntValidator) (x : Value) : Except Err Value :=
  match x with
  | .int n => if v.minv ≤ n ∧ n ≤ v.maxv then .ok (.int n) else .error .rangeError
  | _ => .error .typeMismatch

/-- Modelled from the spec: a string validator with optional character
count bounds (the regex pattern constraint is not used by any claim and is
omitted). -/
structure StrValidator where
  min_length : Option Nat
  max_length : Option Nat

/-- Modelled from the spec: string check succeeds iff the value is a
string whose character count lies within the declared bounds; a null or
other non-string wire value fails the runtime-kind check (spec section
4.1). -/
def StrValidator.check (v : StrValidator) (x : Value) : Except Err Value :=
  match x with
  | .str s =>
      if (v.min_length.getD 0) ≤ s.length ∧ s.length ≤ (v.max_length.getD s.length) then
        .ok (.str s)
      else .error .rangeError
  | _ => .error .typeMismatch

/-- Primitive validators needed by the claims: integers, strings,
booleans. -/
inductive PrimValidator where
  | int (v : IntValidator)
  | str (v : StrValidator)
  | boolean

/-- Modelled from the spec: dispatch of check over the primitive kinds
(spec section 4.1: a validator fails with a runtime-kind error whenever
the value is not of the declared kind, so a JSON null never passes a
non-null primitive validator). -/
def PrimValidator.check (p : PrimValidator) (x : Value) : Except Err Value :=
  match p with
  | .int v => v.check x
  | .str v => v.check x
  | .boolean =>
      match x with
      | .bool b => .ok (.bool b)
      | _ => .error .typeMismatch

/-- A field data type: a primitive validator (the generated
__f_data_type class attribute) or a reference to a composite class by
name. -/
inductive DataTy where
  | prim (p : PrimValidator)
  | comp (cname : String)

/-- A struct field descriptor: name, data type, optional flag and
declared default. -/
structure FieldDef where
  name : String
  ty : DataTy
  optional : Bool
  dflt : Option Value

/-- A struct type descriptor.  fields is all_fields with inheritance
already flattened (parent fields followed by own fields), matching the
generated __fields table and the iteration order of the generated
from_dict / to_dict. -/
structure StructDef where
  name : String
  fields : List FieldDef

/-- A union field: a bare symbol variant or a payload variant carrying a
composite type (the generator rejects any other union field shape,
python_json.babelg.py line 436). -/
inductive UnionFieldDef where
  | symbol (n : String)
  | payload (n : String) (cname : String)

/-- The tag name of a union field. -/
def UnionFieldDef.fname : UnionFieldDef → String
  | .symbol n => n
  | .payload n _ => n

/-- A union type descriptor; fields is all_fields in declaration order. -/
structure UnionDef where
  name : String
  fields : List UnionFieldDef

/-- A composite type: struct or union. -/
inductive CompDef where
  | struct (d : StructDef)
  | union (u : UnionDef)

/-- The schema environment: generated classes addressable by name
(the module namespace of the generated code). -/
def Env := List (String × CompDef)

/-- Class lookup by name in the generated module. -/
def envLookup (env : Env) (n : String) : Option CompDef :=
  match env.find? (fun p => p.1 == n) with
  | some p => some p.2
  | none => none

/-- The slot state of a struct instance: for each field name the stored
value self._f and the set flag self.__has_f. -/
abbrev Slots := List (String × Value × Bool)

/-- The generated struct __init__: every declared field starts with
self._f = None and self.__has_f = False (python_json.babelg.py lines
230-233). -/
def slotsInit (d : StructDef) : Slots :=
  d.fields.map (fun f => (f.name, Value.null, false))

/-- Read a slot; a name outside the slot list reads as the pristine
(None, unset) state. -/
def getSlot : Slots → String → Value × Bool
  | [], _ => (Value.null, false)
  | p :: rest, n => if p.1 = n then p.2 else getSlot rest n

/-- Write a slot, Python setattr style: overwrite the first entry with
that name, or append a fresh entry. -/
def setSlot : Slots → String → Value × Bool → Slots
  | [], n, v => [(n, v)]
  | p :: rest, n, v => if p.1 = n then (n, v) :: rest else p :: setSlot rest n v

/-- The validation a generated property setter performs before storing:
for a primitive field, self.__f_data_type.validate(val); for a composite
field, the isinstance check against the field class.  The source also
calls val.validate() on composite values but discards its Boolean result
(python_json.babelg.py line 286), so that call can never reject and has no
effect here. -/
def checkAssign (ty : DataTy) (v : Value) : Except Err Unit :=
  match ty with
  | .prim p =>
      match p.check v with
      | .ok _ => .ok ()
      | .error e => .error e
  | .comp cname => if v.instOf cname then .ok () else .error .typeError

/-- The generated property setter for a struct field: validate the value,
then self._f = val and self.__has_f = True (python_json.babelg.py lines
277-291).  Assigning to a name with no generated property is a TypeError
in this embedding. -/
def structSetField (d : StructDef) (s : Slots) (fname : String) (v : Value) :
    Except Err Slots :=
  match d.fields.find? (fun f => f.name == fname) with
  | none => .error .typeError
  | some f =>
      match checkAssign f.ty v with
      | .ok _ => .ok (setSlot s fname (v, true))
      | .error e => .error e

/-- The generated property getter for a struct field
(python_json.babelg.py lines 254-275): if self.__has_f, return self._f;
otherwise a required field raises KeyError and an optional field without a
default returns None.  For an optional field with a default the source
emits the default literal as a bare expression statement with no return
keyword (line 270), so the generated Python getter evaluates and discards
the default and falls through, returning None; this embedding reproduces
that. -/
def structGetField (d : StructDef) (s : Slots) (fname : String) :
    Except Err Value :=
  match d.fields.find? (fun f => f.name == fname) with
  | none => .error .typeError
  | some f =>
      let sl := getSlot s fname
      if sl.2 then .ok sl.1
      else if f.optional then
        match f.dflt with
        | some _ => .ok Value.null
        | none => .ok Value.null
      else .error .missingRequired

/-- The body of the generated property deleter (python_json.babelg.py
lines 296-298): self._f = None; self.__has_f = False. -/
def structDelBody (s : Slots) (fname : String) : Slots :=
  setSlot s fname (Value.null, false)

/-- The mutating operations available on a struct instance: assigning a
field through its property setter, and the del statement on a field. -/
inductive StructOp where
  | setF (fname : String) (v : Value)
  | delF (fname : String)

/-- Apply one operation.  The generated deleter is declared as
def f(self, val) (python_json.babelg.py line 295), but the Python
property deleter protocol invokes it with the instance as its only
argument, so every del x.f raises TypeError at argument binding, before
structDelBody can execute: the operation fails without mutating the
instance. -/
def structApplyOp (d : StructDef) (s : Slots) : StructOp → Except Err Slots
  | .setF f v => structSetField d s f v
  | .delF _ => .error .typeError

/-- The state after attempting one operation: a raised exception leaves
the slots unchanged. -/
def structRunOp (d : StructDef) (s : Slots) (op : StructOp) : Slots :=
  match structApplyOp d s op with
  | .ok s2 => s2
  | .error _ => s

/-- The generated validate (python_json.babelg.py lines 239-248):
all([self.__has_f for f in all_required_fields]). -/
def structValidate (d : StructDef) (s : Slots) : Bool :=
  (d.fields.filter (fun f => !f.optional)).all (fun f => (getSlot s f.name).2)

/-- Modelled from the spec: transformer.convert_from of the missing
serializer module runs a wire value through the field validator on decode
(spec section 4.5: "run the wire value through the field's validator then
assign").  The conversion is the identity on the JSON-compatible values of
this embedding. -/
def convertFrom (p : PrimValidator) (v : Value) : Except Err Value := p.check v

/-- Modelled from the spec: transformer.convert_to re-validates a stored
primitive value before emission (spec section 4.5: "re-validated and
converted via their validator before emission"). -/
def convertTo (p : PrimValidator) (v : Value) : Except Err Value := p.check v

/-- Python obj.get(name): the value under a key, or None when absent. -/
def lookupKV (kvs : List (String × Value)) (n : String) : Option Value :=
  match kvs.find? (fun p => p.1 == n) with
  | some p => some p.2
  | none => none

/-- The field-decoding loop of the generated struct from_dict
(python_json.babelg.py lines 329-353), processing all_fields in order
against the wire object kvs.  dec is the nested-composite decoder
(Class.from_dict of the referenced class).
For an optional composite field the assignment is guarded by
obj.get(name) is not None; for an optional non-composite field the source
assigns transformer.convert_from(__f_data_type, obj.get(name))
unconditionally (line 341), so an absent key feeds None into the
conversion.  A required field first checks key membership and raises
KeyError otherwise.  Every assignment goes through the generated property
setter. -/
def decodeFields (dec : String → Value → Except Err Value) (d : StructDef)
    (kvs : List (String × Value)) : List FieldDef → Slots → Except Err Slots
  | [], s => .ok s
  | f :: rest, s =>
      if f.optional then
        match f.ty with
        | .comp cname =>
            match lookupKV kvs f.name with
            | some v =>
                if v.isNull then decodeFields dec d kvs rest s
                else
                  match dec cname v with
                  | .error e => .error e
                  | .ok nv =>
                      match structSetField d s f.name nv with
                      | .error e => .error e
                      | .ok s2 => decodeFields dec d kvs rest s2
            | none => decodeFields dec d kvs rest s
        | .prim p =>
            match convertFrom p ((lookupKV kvs f.name).getD Value.null) with
            | .error e => .error e
            | .ok cv =>
                match structSetField d s f.name cv with
                | .error e => .error e
                | .ok s2 => decodeFields dec d kvs rest s2
      else
        match lookupKV kvs f.name with
        | none => .error .missingRequired
        | some v =>
            match f.ty with
            | .comp cname =>
                match dec cname v with
                | .error e => .error e
                | .ok nv =>
                    match structSetField d s f.name nv with
                    | .error e => .error e
                    | .ok s2 => decodeFields dec d kvs rest s2
            | .prim p =>
                match convertFrom p v with
                | .error e => .error e
                | .ok cv =>
                    match structSetField d s f.name cv with
                    | .error e => .error e
                    | .ok s2 => decodeFields dec d kvs rest s2

/-- The generated struct from_dict (python_json.babelg.py lines 315-356):
first every key of the wire object is checked against the __fields name
table (KeyError "Unknown key" otherwise), then a fresh instance is built
and the fields are decoded in order.  A non-dict wire value cannot be
decoded into a struct (iterating it or calling .get on it raises in
Python). -/
def structFromDictBody (dec : String → Value → Except Err Value)
    (d : StructDef) (w : Value) : Except Err Value :=
  match w with
  | .obj kvs =>
      match kvs.find? (fun p => !(d.fields.any (fun f => f.name == p.1))) with
      | some _ => .error .unknownKey
      | none =>
          match decodeFields dec d kvs d.fields (slotsInit d) with
          | .error e => .error e
          | .ok s => .ok (.inst d.name s)
  | _ => .error .typeMismatch

/-- Emission of one field value by the generated to_dict: a primitive
field goes through transformer.convert_to, a composite field through the
nested instance to_dict (enc). -/
def emitFieldVal (enc : Value → Except Err Value) (f : FieldDef) (sv : Value) :
    Except Err Value :=
  match f.ty with
  | .prim p => convertTo p sv
  | .comp _ => enc sv

/-- The required-field part of the generated to_dict
(python_json.babelg.py lines 363-371): every field of
all_required_fields is emitted from its raw slot value self._f. -/
def emitRequired (enc : Value → Except Err Value) :
    List FieldDef → Slots → Except Err (List (String × Value))
  | [], _ => .ok []
  | f :: rest, s =>
      match emitFieldVal enc f (getSlot s f.name).1 with
      | .error e => .error e
      | .ok x =>
          match emitRequired enc rest s with
          | .error e => .error e
          | .ok tail => .ok ((f.name, x) :: tail)

/-- The optional-field part of the generated to_dict
(python_json.babelg.py lines 372-378): a field of all_optional_fields is
emitted iff self._f is not None. -/
def emitOptional (enc : Value → Except Err Value) :
    List FieldDef → Slots → Except Err (List (String × Value))
  | [], _ => .ok []
  | f :: rest, s =>
      if (getSlot s f.name).1.isNull then emitOptional enc rest s
      else
        match emitFieldVal enc f (getSlot s f.name).1 with
        | .error e => .error e
        | .ok x =>
            match emitOptional enc rest s with
            | .error e => .error e
            | .ok tail => .ok ((f.name, x) :: tail)

/-- The generated struct to_dict (python_json.babelg.py lines 358-380):
the wire object holds the required fields followed by the present optional
fields. -/
def structToDictBody (enc : Value → Except Err Value) (d : StructDef)
    (s : Slots) : Except Err Value :=
  match emitRequired enc (d.fields.filter (fun f => !f.optional)) s with
  | .error e => .error e
  | .ok req =>
      match emitOptional enc (d.fields.filter (fun f => f.optional)) s with
      | .error e => .error e
      | .ok opt => .ok (.obj (req ++ opt))

/-- The runtime state of a union instance: the selected tag self.__tag
and the payload slots self._f. -/
abbrev UState := Option String × List (String × Value)

/-- The generated union __init__ (python_json.babelg.py lines 447-465):
every payload slot starts at None and no tag is selected. -/
def unionNew (u : UnionDef) : UState :=
  (none,
    u.fields.filterMap (fun f =>
      match f with
      | .payload n _ => some (n, Value.null)
      | .symbol _ => none))

/-- The generated is_<tag> query (python_json.babelg.py lines 473-479):
self.__tag == tag name. -/
def unionIs (st : UState) (n : String) : Bool := st.1 == some n

/-- The generated set_<tag> method of a symbol variant
(python_json.babelg.py lines 486-489): self.__tag = tag name. -/
def unionSetSymbol (st : UState) (n : String) : UState := (some n, st.2)

/-- Python setattr-style update of a payload slot. -/
def updateKV : List (String × Value) → String → Value → List (String × Value)
  | [], n, v => [(n, v)]
  | p :: rest, n, v => if p.1 = n then (n, v) :: rest else p :: updateKV rest n v

/-- The generated payload property setter of a union
(python_json.babelg.py lines 506-519): isinstance check against the
variant class, then self._f = val and self.__tag = field name.  The
val.validate() call of the source discards its Boolean result (line 514)
and so cannot reject. -/
def unionSetPayload (u : UnionDef) (st : UState) (fname : String) (v : Value) :
    Except Err UState :=
  match u.fields.find? (fun f =>
      match f with
      | .payload n _ => n == fname
      | .symbol _ => false) with
  | some (.payload n cname) =>
      if v.instOf cname then .ok (some n, updateKV st.2 n v)
      else .error .typeError
  | _ => .error .typeError

/-- The generated payload property getter of a union
(python_json.babelg.py lines 493-503): raises unless the tag is the
active one. -/
def unionGetPayload (st : UState) (n : String) : Except Err Value :=
  if unionIs st n then .ok ((lookupKV st.2 n).getD Value.null)
  else .error .tagNotSet

/-- Whether one branch of the generated union from_dict matches the wire
value: a symbol branch matches a bare string equal to its name, a payload
branch matches a dict whose first key equals its name
(python_json.babelg.py lines 533-555). -/
def branchMatches (w : Value) : UnionFieldDef → Bool
  | .symbol n =>
      match w with
      | .str s2 => s2 == n
      | _ => false
  | .payload n _ =>
      match w with
      | .obj ((k, _) :: _) => k == n
      | _ => false

/-- The branch cascade of the generated union from_dict: each field is
tried in order; a matching symbol branch runs set_<tag>(), a matching
payload branch decodes the nested wire value and assigns it through the
payload property setter.  Branches that do not match leave the instance
untouched, and no error is raised for a wire value matching no branch. -/
def unionBranches (dec : String → Value → Except Err Value) (w : Value) :
    List UnionFieldDef → UState → Except Err UState
  | [], st => .ok st
  | f :: rest, st =>
      match f with
      | .symbol n =>
          match w with
          | .str s2 =>
              if s2 = n then unionBranches dec w rest (unionSetSymbol st n)
              else unionBranches dec w rest st
          | _ => unionBranches dec w rest st
      | .payload n cname =>
          match w with
          | .obj ((k, v) :: _) =>
              if k = n then
                match dec cname v with
                | .error e => .error e
                | .ok nv =>
                    if nv.instOf cname then
                      unionBranches dec w rest (some n, updateKV st.2 n nv)
                    else .error .typeError
              else unionBranches dec w rest st
          | _ => unionBranches dec w rest st

/-- The generated union from_dict (python_json.babelg.py lines 521-558):
a fresh instance is built; a dict wire value with a key count different
from one raises KeyError; then the branch cascade runs and the instance is
returned, tag-less if nothing matched. -/
def unionFromDictBody (dec : String → Value → Except Err Value)
    (u : UnionDef) (w : Value) : Except Err Value :=
  match w with
  | .obj kvs =>
      if kvs.length = 1 then
        match unionBranches dec w u.fields (unionNew u) with
        | .error e => .error e
        | .ok st => .ok (.uinst u.name st.1 st.2)
      else .error .keyCountError
  | _ =>
      match unionBranches dec w u.fields (unionNew u) with
      | .error e => .error e
      | .ok st => .ok (.uinst u.name st.1 st.2)

/-- The first field whose is_<tag> query is true, used by the generated
union to_dict cascade. -/
def unionToDictBody (enc : Value → Except Err Value) (st : UState) :
    List UnionFieldDef → Except Err Value
  | [] => .ok Value.null
  | f :: rest =>
      match f with
      | .symbol n =>
          if unionIs st n then .ok (.str n)
          else unionToDictBody enc st rest
      | .payload n _ =>
          if unionIs st n then
            match enc ((lookupKV st.2 n).getD Value.null) with
            | .error e => .error e
            | .ok x => .ok (.obj [(n, x)])
          else unionToDictBody enc st rest

/-- Decoding a wire value into the composite class named cname:
Class.from_dict of the generated module, with a recursion budget for
nested composites. -/
def compFromDict (fuel : Nat) (env : Env) (cname : String) (w : Value) :
    Except Err Value :=
  match fuel with
  | 0 => .error .recursionLimit
  | Nat.succ n =>
      match envLookup env cname with
      | some (.struct d) =>
          structFromDictBody (fun c2 w2 => compFromDict n env c2 w2) d w
      | some (.union u) =>
          unionFromDictBody (fun c2 w2 => compFromDict n env c2 w2) u w
      | none => .error .typeError

/-- Encoding an in-memory instance to a wire value: x.to_dict of the
generated module, dynamically dispatched on the class of the stored
instance, with a recursion budget for nested composites.  A non-instance
value has no to_dict method (Python AttributeError). -/
def compToDict (fuel : Nat) (env : Env) (v : Value) : Except Err Value :=
  match fuel with
  | 0 => .error .recursionLimit
  | Nat.succ n =>
      match v with
      | .inst ty slots =>
          match envLookup env ty with
          | some (.struct d) =>
              structToDictBody (fun v2 => compToDict n env v2) d slots
          | _ => .error .typeError
      | .uinst ty tag slots =>
          match envLookup env ty with
          | some (.union u) =>
              unionToDictBody (fun v2 => compToDict n env v2) (tag, slots) u.fields
          | _ => .error .typeError
      | _ => .error .typeError

/-- The set-flag/value invariant of reachable struct instances: a slot is
flagged set exactly when its stored value is not None (fresh slots are
(None, unset); every successful setter stores a validated, hence non-null,
value with the flag raised; and no reachable operation unsets a slot). -/
def slotInv (s : Slots) : Bool :=
  s.all (fun p => p.2.2 == !p.2.1.isNull)

/-- A string validator with no constraints, for the concrete schemas
below. -/
def strAny : StrValidator := ⟨none, none⟩

/-- A string field data type. -/
def tyStr : DataTy := DataTy.prim (.str strAny)

/-- Concrete schema: required string field a. -/
def fldA : FieldDef := ⟨"a", tyStr, false, none⟩

/-- Concrete schema: optional string field b without a default. -/
def fldB : FieldDef := ⟨"b", tyStr, true, none⟩

/-- Concrete struct S with a required and an optional primitive field. -/
def sdS : StructDef := ⟨"S", [fldA, fldB]⟩

/-- Module environment holding S. -/
def envS : Env := [("S", CompDef.struct sdS)]

/-- A valid instance of S: field a set to "x", field b never set. -/
def xSlots : Slots := [("a", Value.str "x", true), ("b", Value.null, false)]

/-- Concrete struct T with a single optional primitive field. -/
def sdT : StructDef := ⟨"T", [fldB]⟩

/-- Module environment holding T. -/
def envT : Env := [("T", CompDef.struct sdT)]

/-- Concrete struct R whose optional primitive field precedes its
required field in declaration order. -/
def sdR : StructDef := ⟨"R", [fldB, fldA]⟩

/-- Module environment holding R. -/
def envR : Env := [("R", CompDef.struct sdR)]

/-- An unsigned 64-bit validator with default bounds. -/
def u64Any : IntValidator := ⟨.uint64, none, none⟩

/-- An unsigned 64-bit field data type. -/
def tyU64 : DataTy := DataTy.prim (.int u64Any)

/-- QuotaInfo variant whose quota field is required. -/
def sdQuotaReq : StructDef := ⟨"QuotaInfoReq", [⟨"quota", tyU64, false, none⟩]⟩

/-- QuotaInfo variant whose quota field is optional without a default. -/
def sdQuotaOpt : StructDef := ⟨"QuotaInfoOpt", [⟨"quota", tyU64, true, none⟩]⟩

/-- QuotaInfo variant whose quota field is optional with declared default
64000. -/
def sdQuotaDef : StructDef :=
  ⟨"QuotaInfoDef", [⟨"quota", tyU64, true, some (Value.int 64000)⟩]⟩

/-- A freshly constructed quota instance: the quota slot is unset. -/
def unsetQuota : Slots := [("quota", Value.null, false)]

/-- The UpdateParentRev struct of the test schema
(src/test/test_babel_internal.py test_union). -/
def sdUPR : StructDef := ⟨"UpdateParentRev", [⟨"parent_rev", tyStr, false, none⟩]⟩

/-- The WriteConflictPolicy union of the test schema: two symbol variants
and one struct-payload variant. -/
def conflictU : UnionDef :=
  ⟨"WriteConflictPolicy",
    [.symbol "reject", .symbol "overwrite",
     .payload "update_if_matching_parent_rev" "UpdateParentRev"]⟩

/-- Module environment holding UpdateParentRev and WriteConflictPolicy. -/
def envW : Env :=
  [("UpdateParentRev", CompDef.struct sdUPR),
   ("WriteConflictPolicy", CompDef.union conflictU)]

/-- A valid UpdateParentRev instance. -/
def uprInst : Value :=
  Value.inst "UpdateParentRev" [("parent_rev", Value.str "xyz123", true)]

/-- The union state after set_reject() followed by assigning the
update_if_matching_parent_rev payload on the WriteConflictPolicy union. -/
def updState : UState :=
  (some "update_if_matching_parent_rev",
   [("update_if_matching_parent_rev", uprInst)])

/-- The identity encoder, standing in for nested to_dict where no
composite field occurs. -/
def encId : Value → Except Err Value := fun v => .ok v

end Babel

namespace Babel

theorem getSlot_setSlot_self (s : Slots) (n : String) (v : Value × Bool) :
    getSlot (setSlot s n v) n = v := by
  induction s with
  | nil => simp [setSlot, getSlot]
  | cons p rest ih =>
      by_cases h : p.1 = n
      · simp [setSlot, getSlot, h]
      · simp [setSlot, getSlot, h, ih]

theorem getSlot_setSlot_ne (s : Slots) (n m : String) (v : Value × Bool)
    (h : m ≠ n) : getSlot (setSlot s n v) m = getSlot s m := by
  have h2 : n ≠ m := Ne.symm h
  induction s with
  | nil => simp [setSlot, getSlot, h2]
  | cons p rest ih =>
      by_cases h3 : p.1 = n
      · simp [setSlot, getSlot, h3, h2]
      · by_cases h4 : p.1 = m
        · simp [setSlot, getSlot, h3, h4, h]
        · simp [setSlot, getSlot, h3, h4, ih]

theorem structSetField_ok (d : StructDef) (s : Slots) (f : String) (v : Value)
    (s2 : Slots) (h : structSetField d s f v = .ok s2) :
    s2 = setSlot s f (v, true) := by
  unfold structSetField at h
  cases hf : d.fields.find? (fun g => g.name == f) with
  | none => simp [hf] at h
  | some g =>
      simp only [hf] at h
      cases hc : checkAssign g.ty v with
      | error e => simp [hc] at h
      | ok u =>
          simp only [hc] at h
          exact (Except.ok.inj h).symm

end Babel

namespace Babel

/-- C1: the round-trip law decode(T, encode(x)) == x fails on the code.
The valid instance xSlots of struct S (required a = "x", optional b unset)
validates and encodes to the wire object containing a alone, but decoding
that wire object back raises: the generated from_dict assigns
transformer.convert_from(__b_data_type, obj.get(b)) unconditionally for
the absent optional primitive field b (python_json.babelg.py line 341), and
the validator rejects the resulting None, so decode(encode(x)) is an error
rather than x. -/
theorem c1_roundtrip_fails_on_unset_optional :
    structValidate sdS xSlots = true
    ∧ compToDict 1 envS (Value.inst "S" xSlots) = .ok (.obj [("a", Value.str "x")])
    ∧ compFromDict 1 envS "S" (.obj [("a", Value.str "x")]) = .error .typeMismatch :=
  ⟨rfl, rfl, rfl⟩

/-- C3: decoding a wire object with an absent optional field does not
leave the field unset.  For struct T whose only field b is optional and
primitive, from_dict of the empty wire object raises instead of returning
an instance with b unset, because line 341 of python_json.babelg.py feeds
obj.get(b) = None into the conversion and the property setter
unconditionally. -/
theorem c3_absent_optional_not_left_unset :
    compFromDict 1 envT "T" (.obj []) = .error .typeMismatch := rfl

/-- C4: reading an unset field.  An unset required field raises KeyError
and an unset optional field without a default returns None, as claimed;
but an unset optional field with declared default 64000 also returns None
instead of 64000, because the generated getter emits the default literal
as a bare expression statement with no return keyword
(python_json.babelg.py line 270). -/
theorem c4_getter_unset_default_returns_none :
    structGetField sdQuotaReq unsetQuota "quota" = .error .missingRequired
    ∧ structGetField sdQuotaOpt unsetQuota "quota" = .ok Value.null
    ∧ structGetField sdQuotaDef unsetQuota "quota" = .ok Value.null
    ∧ structGetField sdQuotaDef unsetQuota "quota" ≠ .ok (Value.int 64000) := by
  refine ⟨rfl, rfl, rfl, fun h => ?_⟩
  have h2 : (Except.ok Value.null : Except Err Value) = .ok (Value.int 64000) := h
  simp at h2

/-- C7: error kinds of struct from_dict.  A wire object containing an
unrecognized key always raises the unknown-key KeyError, and a wire object
missing a required key raises the missing-required KeyError when the
required field is reached; but for struct R, whose optional primitive
field b precedes its required field a, decoding the empty wire object
raises the validator error from the unconditional conversion of the absent
optional field b (python_json.babelg.py line 341) before the
missing-required check for a runs, so the failure is not the
MissingRequiredField error the claim names. -/
theorem c7_decode_error_kinds :
    compFromDict 1 envS "S" (.obj [("zzz", Value.null)]) = .error .unknownKey
    ∧ compFromDict 1 envS "S" (.obj []) = .error .missingRequired
    ∧ compFromDict 1 envR "R" (.obj []) = .error .typeMismatch :=
  ⟨rfl, rfl, rfl⟩

/-- C5: the per-slot state machine of a struct instance is one-way.
Whatever single operation is attempted on an instance - any property
assignment, successful or raising, or the del statement (whose generated
deleter is uncallable: it is declared with an extra positional parameter,
so the property protocol raises TypeError before its body runs) - a slot
whose set flag is true keeps a true set flag; and a successful setter
overwrites the stored value and leaves the flag SET. -/
theorem c5_set_flag_one_way (d : StructDef) (s : Slots) (fn : String)
    (op : StructOp) (hset : (getSlot s fn).2 = true) :
    (getSlot (structRunOp d s op) fn).2 = true
    ∧ ∀ (f : String) (v : Value) (s2 : Slots),
        structSetField d s f v = .ok s2 →
        (getSlot s2 f).2 = true ∧ (getSlot s2 f).1 = v := by
  constructor
  · cases op with
    | delF f => simpa [structRunOp, structApplyOp] using hset
    | setF f v =>
        cases h2 : structSetField d s f v with
        | error e => simpa [structRunOp, structApplyOp, h2] using hset
        | ok s2 =>
            have h3 := structSetField_ok d s f v s2 h2
            subst h3
            simp only [structRunOp, structApplyOp, h2]
            by_cases h4 : f = fn
            · subst h4; simp [getSlot_setSlot_self]
            · rw [getSlot_setSlot_ne s f fn _ (Ne.symm h4)]; exact hset
  · intro f v s2 h2
    have h3 := structSetField_ok d s f v s2 h2
    subst h3
    simp [getSlot_setSlot_self]

/-- Witness for c5_set_flag_one_way: on the concrete instance xSlots of S
with field a set, attempting del keeps the flag true, and re-setting a to
"y" overwrites the value while keeping the flag true. -/
theorem c5_witness :
    (getSlot (structRunOp sdS xSlots (StructOp.delF "a")) "a").2 = true
    ∧ (getSlot [("a", Value.str "y", true), ("b", Value.null, false)] "a").2 = true
    ∧ (getSlot [("a", Value.str "y", true), ("b", Value.null, false)] "a").1
        = Value.str "y" := by
  have h := c5_set_flag_one_way sdS xSlots "a" (StructOp.delF "a") rfl
  have h2 := h.2 "a" (Value.str "y")
    [("a", Value.str "y", true), ("b", Value.null, false)] rfl
  exact ⟨h.1, h2.1, h2.2⟩

/-- C6: the generated validate is a pure read returning true exactly when
every required (non-optional) field slot is flagged set, with no condition
on optional fields. -/
theorem c6_validate_iff_required_set (d : StructDef) (s : Slots) :
    structValidate d s = true ↔
      ∀ f ∈ d.fields, f.optional = false → (getSlot s f.name).2 = true := by
  unfold structValidate
  rw [List.all_eq_true]
  constructor
  · intro h f hf hopt
    exact h f (List.mem_filter.mpr ⟨hf, by simp [hopt]⟩)
  · intro h f hf
    have h2 := List.mem_filter.mp hf
    exact h f h2.1 (by simpa using h2.2)

/-- Witness for c6_validate_iff_required_set: on the valid concrete
instance xSlots of S, validate() = true yields the set flag of the
required field a. -/
theorem c6_witness : (getSlot xSlots "a").2 = true :=
  (c6_validate_iff_required_set sdS xSlots).mp rfl fldA
    (List.mem_cons_self _ _) rfl

end Babel

namespace Babel

/-- C9: a union instance has at most one active tag, and setting any tag
replaces the previous one.  The generated __tag is a single attribute, so
two is_<tag> queries can only both hold for the same name; set_<tag>
makes its own tag active and every other tag inactive; a successful
payload setter does the same; and concretely on WriteConflictPolicy,
set_reject() followed by setting the update_if_matching_parent_rev
payload leaves is_reject() false and the payload tag active. -/
theorem c9_one_active_tag (u : UnionDef) (st : UState) (f g : String) :
    (unionIs st f = true → unionIs st g = true → f = g)
    ∧ unionIs (unionSetSymbol st f) f = true
    ∧ (∀ m : String, m ≠ f → unionIs (unionSetSymbol st f) m = false)
    ∧ (∀ (fn : String) (v : Value) (st2 : UState),
        unionSetPayload u st fn v = .ok st2 →
        unionIs st2 fn = true ∧ ∀ m : String, m ≠ fn → unionIs st2 m = false)
    ∧ unionIs (unionSetSymbol (unionNew conflictU) "reject") "reject" = true
    ∧ unionSetPayload conflictU (unionSetSymbol (unionNew conflictU) "reject")
        "update_if_matching_parent_rev" uprInst = .ok updState
    ∧ unionIs updState "reject" = false
    ∧ unionIs updState "update_if_matching_parent_rev" = true := by
  refine ⟨?_, ?_, ?_, ?_, rfl, rfl, rfl, rfl⟩
  · intro h1 h2
    have e1 : st.1 = some f := by simpa [unionIs] using h1
    have e2 : st.1 = some g := by simpa [unionIs] using h2
    exact Option.some.inj (e1.symm.trans e2)
  · simp [unionIs, unionSetSymbol]
  · intro m hm
    simp [unionIs, unionSetSymbol, Ne.symm hm]
  · intro fn v st2 h
    unfold unionSetPayload at h
    cases hf : u.fields.find? (fun f2 =>
        match f2 with
        | .payload n _ => n == fn
        | .symbol _ => false) with
    | none => simp [hf] at h
    | some f2 =>
        cases f2 with
        | symbol n => have := List.find?_some hf; simp at this
        | payload n cname =>
            have hn : n = fn := by
              have := List.find?_some hf
              simpa using this
            subst hn
            simp only [hf] at h
            cases hio : v.instOf cname with
            | false => simp [hio] at h
            | true =>
                simp only [hio, if_true] at h
                have h2 := Except.ok.inj h
                subst h2
                constructor
                · simp [unionIs]
                · intro m hm
                  simp [unionIs, Ne.symm hm]

/-- Witness for c9_one_active_tag: applied on the WriteConflictPolicy
union in the state reached by set_reject(), with the payload assignment
discharged concretely. -/
theorem c9_witness :
    (("reject" : String) = "reject")
    ∧ unionIs updState "reject" = false
    ∧ unionIs updState "update_if_matching_parent_rev" = true := by
  have h := c9_one_active_tag conflictU
    (unionSetSymbol (unionNew conflictU) "reject") "reject" "reject"
  have h4 := h.2.2.2.1 "update_if_matching_parent_rev" uprInst updState rfl
  exact ⟨h.1 rfl rfl, h4.2 "reject" (by decide), h4.1⟩

/-- C10: integer validator semantics.  For each of the four
width-and-signedness kinds and any declared bounds, check returns an
in-range integer unchanged and fails with RangeError on any out-of-range
integer; with default bounds the unsigned 32-bit validator accepts 0 and
4294967295 and rejects 4294967296 and -1. -/
theorem c10_int_check_range (k : IntKind) (mn mx : Option Int) (n : Int) :
    (IntValidator.minv ⟨k, mn, mx⟩ ≤ n → n ≤ IntValidator.maxv ⟨k, mn, mx⟩ →
       IntValidator.check ⟨k, mn, mx⟩ (.int n) = .ok (.int n))
    ∧ (¬(IntValidator.minv ⟨k, mn, mx⟩ ≤ n ∧ n ≤ IntValidator.maxv ⟨k, mn, mx⟩) →
       IntValidator.check ⟨k, mn, mx⟩ (.int n) = .error .rangeError)
    ∧ IntValidator.check ⟨.uint32, none, none⟩ (.int 0) = .ok (.int 0)
    ∧ IntValidator.check ⟨.uint32, none, none⟩ (.int 4294967295)
        = .ok (.int 4294967295)
    ∧ IntValidator.check ⟨.uint32, none, none⟩ (.int 4294967296)
        = .error .rangeError
    ∧ IntValidator.check ⟨.uint32, none, none⟩ (.int (-1))
        = .error .rangeError := by
  refine ⟨?_, ?_, rfl, rfl, rfl, rfl⟩
  · intro h1 h2
    simp [IntValidator.check, h1, h2]
  · intro h1
    simp [IntValidator.check, h1]

/-- Witness for c10_int_check_range: the signed 32-bit validator with
default bounds accepts 42 and rejects 2^31, the values exercised by
src/test/test_babel_internal.py test_int. -/
theorem c10_witness :
    IntValidator.check ⟨.int32, none, none⟩ (.int 42) = .ok (.int 42)
    ∧ IntValidator.check ⟨.int32, none, none⟩ (.int (2 ^ 31))
        = .error .rangeError := by
  have h := c10_int_check_range .int32 none none 42
  have h2 := c10_int_check_range .int32 none none (2 ^ 31)
  exact ⟨h.1 (by decide) (by decide), h2.2.1 (by decide)⟩

end Babel

namespace Babel

theorem emitRequired_ok_keys (enc : Value → Except Err Value)
    (l : List FieldDef) (s : Slots) (out : List (String × Value))
    (h : emitRequired enc l s = .ok out) :
    out.map Prod.fst = l.map FieldDef.name := by
  induction l generalizing out with
  | nil =>
      unfold emitRequired at h
      have h2 := Except.ok.inj h
      subst h2
      rfl
  | cons f rest ih =>
      unfold emitRequired at h
      cases h1 : emitFieldVal enc f (getSlot s f.name).1 with
      | error e => simp [h1] at h
      | ok x =>
          simp only [h1] at h
          cases h2 : emitRequired enc rest s with
          | error e => simp [h2] at h
          | ok tail =>
              simp only [h2] at h
              have h3 := Except.ok.inj h
              subst h3
              simp [ih tail h2]

theorem emitOptional_ok_keys (enc : Value → Except Err Value)
    (l : List FieldDef) (s : Slots) (out : List (String × Value))
    (h : emitOptional enc l s = .ok out) :
    out.map Prod.fst
      = (l.filter (fun f => !(getSlot s f.name).1.isNull)).map FieldDef.name := by
  induction l generalizing out with
  | nil =>
      unfold emitOptional at h
      have h2 := Except.ok.inj h
      subst h2
      rfl
  | cons f rest ih =>
      unfold emitOptional at h
      cases hn : (getSlot s f.name).1.isNull with
      | true =>
          simp only [hn, if_true] at h
          rw [ih out h]
          simp [hn]
      | false =>
          simp only [hn, Bool.false_eq_true, if_false] at h
          cases h1 : emitFieldVal enc f (getSlot s f.name).1 with
          | error e => simp [h1] at h
          | ok x =>
              simp only [h1] at h
              cases h2 : emitOptional enc rest s with
              | error e => simp [h2] at h
              | ok tail =>
                  simp only [h2] at h
                  have h3 := Except.ok.inj h
                  subst h3
                  simp [hn, ih tail h2]

theorem slotInv_flag (s : Slots) (h : slotInv s = true) (n : String) :
    (getSlot s n).2 = !(getSlot s n).1.isNull := by
  induction s with
  | nil => simp [getSlot, Value.isNull]
  | cons p rest ih =>
      unfold slotInv at h
      simp only [List.all_cons, Bool.and_eq_true] at h
      by_cases h2 : p.1 = n
      · simpa [getSlot, h2] using eq_of_beq h.1
      · exact (by simpa [getSlot, h2] using ih h.2)

/-- C2: emission discipline of the generated struct to_dict.  Whenever
to_dict succeeds on an instance satisfying the reachable-state invariant
(set flag equals value-is-not-None, see slotInv) over a struct with
distinct field names, every required field appears in the wire object, and
an optional field appears if and only if its slot is flagged set - an
unset optional field is omitted entirely, never emitted as null. -/
theorem c2_to_dict_emission (enc : Value → Except Err Value) (d : StructDef)
    (s : Slots) (kvs : List (String × Value))
    (hok : structToDictBody enc d s = .ok (.obj kvs))
    (hnd : (d.fields.map FieldDef.name).Nodup)
    (hinv : slotInv s = true) :
    ∀ f ∈ d.fields,
      (f.optional = false → f.name ∈ kvs.map Prod.fst)
      ∧ (f.optional = true →
          (f.name ∈ kvs.map Prod.fst ↔ (getSlot s f.name).2 = true)) := by
  intro f hf
  unfold structToDictBody at hok
  cases hreq : emitRequired enc (d.fields.filter (fun g => !g.optional)) s with
  | error e => simp [hreq] at hok
  | ok req =>
      simp only [hreq] at hok
      cases hopt : emitOptional enc (d.fields.filter (fun g => g.optional)) s with
      | error e => simp [hopt] at hok
      | ok opt =>
          simp only [hopt] at hok
          have hkvs : req ++ opt = kvs := by
            have h2 := Except.ok.inj hok
            exact Value.obj.inj h2
          have hkeys : kvs.map Prod.fst
              = (d.fields.filter (fun g => !g.optional)).map FieldDef.name
                ++ ((d.fields.filter (fun g => g.optional)).filter
                      (fun g => !(getSlot s g.name).1.isNull)).map FieldDef.name := by
            rw [← hkvs, List.map_append,
                emitRequired_ok_keys enc _ s req hreq,
                emitOptional_ok_keys enc _ s opt hopt]
          have hinj := List.inj_on_of_nodup_map hnd
          constructor
          · intro hro
            rw [hkeys]
            refine List.mem_append_left _ (List.mem_map.mpr ⟨f, ?_, rfl⟩)
            exact List.mem_filter.mpr ⟨hf, by simp [hro]⟩
          · intro hro
            rw [hkeys]
            constructor
            · intro hmem
              cases List.mem_append.mp hmem with
              | inl hl =>
                  obtain ⟨g, hg, hgn⟩ := List.mem_map.mp hl
                  have hg2 := List.mem_filter.mp hg
                  have hfg : g = f := hinj hg2.1 hf hgn
                  subst hfg
                  rw [hro] at hg2
                  simp at hg2
              | inr hr =>
                  obtain ⟨g, hg, hgn⟩ := List.mem_map.mp hr
                  have hg2 := List.mem_filter.mp hg
                  have hg3 := List.mem_filter.mp hg2.1
                  have hfg : g = f := hinj hg3.1 hf hgn
                  rw [hfg] at hg2
                  rw [slotInv_flag s hinv f.name]
                  simpa using hg2.2
            · intro hflag
              refine List.mem_append_right _ (List.mem_map.mpr ⟨f, ?_, rfl⟩)
              refine List.mem_filter.mpr ⟨List.mem_filter.mpr ⟨hf, by simp [hro]⟩, ?_⟩
              rw [slotInv_flag s hinv f.name] at hflag
              simpa using hflag

/-- Witness for c2_to_dict_emission: on the concrete instance xSlots of
struct S, the emitted wire object contains the required field a and omits
the unset optional field b. -/
theorem c2_witness :
    ("a" ∈ ([("a", Value.str "x")] : List (String × Value)).map Prod.fst)
    ∧ (("b" ∈ ([("a", Value.str "x")] : List (String × Value)).map Prod.fst)
        ↔ (getSlot xSlots "b").2 = true) := by
  have h := c2_to_dict_emission encId sdS xSlots [("a", Value.str "x")]
    rfl (by decide) rfl
  have ha := h fldA (List.mem_cons_self _ _)
  have hb := h fldB (List.mem_cons_of_mem _ (List.mem_cons_self _ _))
  exact ⟨ha.1 rfl, hb.2 rfl⟩

end Babel

namespace Babel

theorem unionBranches_nomatch (dec : String → Value → Except Err Value)
    (w : Value) (fields : List UnionFieldDef) (st : UState)
    (h : ∀ f ∈ fields, branchMatches w f = false) :
    unionBranches dec w fields st = .ok st := by
  induction fields with
  | nil => rfl
  | cons f rest ih =>
      have hh := h f (List.mem_cons_self _ _)
      have ht : ∀ g ∈ rest, branchMatches w g = false :=
        fun g hg => h g (List.mem_cons_of_mem _ hg)
      cases f with
      | symbol n =>
          cases w with
          | str s2 =>
              have hne : ¬s2 = n := by simpa [branchMatches] using hh
              simp only [unionBranches, hne, if_false]
              exact ih ht
          | null => exact ih ht
          | bool b => exact ih ht
          | int m => exact ih ht
          | obj kvs => exact ih ht
          | inst t sl => exact ih ht
          | uinst t tg sl => exact ih ht
      | payload n cname =>
          cases w with
          | obj kvs =>
              cases kvs with
              | nil => exact ih ht
              | cons p tl =>
                  have hne : ¬p.1 = n := by
                    cases p with
                    | mk k v => simpa [branchMatches] using hh
                  cases p with
                  | mk k v =>
                      simp only [unionBranches, hne, if_false]
                      exact ih ht
          | null => exact ih ht
          | bool b => exact ih ht
          | int m => exact ih ht
          | str s2 => exact ih ht
          | inst t sl => exact ih ht
          | uinst t tg sl => exact ih ht

/-- C8 counterexample: decoding the bare string "bogus", which matches no
SymbolField of WriteConflictPolicy, does not fail; the generated union
from_dict silently returns an instance with no tag selected. -/
theorem c8_counterexample :
    compFromDict 1 envW "WriteConflictPolicy" (.str "bogus")
      = .ok (.uinst "WriteConflictPolicy" none
          [("update_if_matching_parent_rev", Value.null)]) := rfl

/-- C8 amended: the generated union from_dict raises only when the wire
value is a dict whose key count differs from one; a bare string matching
no symbol variant, or a single-key dict whose key matches no variant,
decodes without error to an instance with no tag selected (which fails
validate()). -/
theorem c8_union_decode_amended (dec : String → Value → Except Err Value)
    (u : UnionDef) :
    (∀ kvs : List (String × Value), kvs.length ≠ 1 →
        unionFromDictBody dec u (.obj kvs) = .error .keyCountError)
    ∧ (∀ s2 : String,
        u.fields.all (fun f => !branchMatches (.str s2) f) = true →
        unionFromDictBody dec u (.str s2)
          = .ok (.uinst u.name none (unionNew u).2))
    ∧ (∀ (k : String) (v : Value),
        u.fields.all (fun f => !branchMatches (.obj [(k, v)]) f) = true →
        unionFromDictBody dec u (.obj [(k, v)])
          = .ok (.uinst u.name none (unionNew u).2)) := by
  refine ⟨?_, ?_, ?_⟩
  · intro kvs hlen
    simp [unionFromDictBody, hlen]
  · intro s2 hall
    have h2 : ∀ f ∈ u.fields, branchMatches (.str s2) f = false := by
      intro f hf
      have h3 := List.all_eq_true.mp hall f hf
      simpa using h3
    have h4 := unionBranches_nomatch dec (Value.str s2) u.fields (unionNew u) h2
    have h5 : unionFromDictBody dec u (.str s2)
        = match unionBranches dec (Value.str s2) u.fields (unionNew u) with
          | .error e => .error e
          | .ok st => .ok (.uinst u.name st.1 st.2) := rfl
    rw [h5, h4]
    rfl
  · intro k v hall
    have h2 : ∀ f ∈ u.fields, branchMatches (.obj [(k, v)]) f = false := by
      intro f hf
      have h3 := List.all_eq_true.mp hall f hf
      simpa using h3
    have h4 := unionBranches_nomatch dec (Value.obj [(k, v)]) u.fields (unionNew u) h2
    have h5 : unionFromDictBody dec u (.obj [(k, v)])
        = match unionBranches dec (Value.obj [(k, v)]) u.fields (unionNew u) with
          | .error e => .error e
          | .ok st => .ok (.uinst u.name st.1 st.2) := rfl
    rw [h5, h4]
    rfl

/-- Witness for c8_union_decode_amended: on WriteConflictPolicy, the empty
dict raises the key-count error, while the unmatched bare string "bogus"
and the unrecognized single-key dict decode to tag-less instances. -/
theorem c8_witness :
    unionFromDictBody (fun c2 w2 => compFromDict 0 envW c2 w2) conflictU (.obj [])
      = .error .keyCountError
    ∧ unionFromDictBody (fun c2 w2 => compFromDict 0 envW c2 w2) conflictU
        (.str "bogus")
      = .ok (.uinst "WriteConflictPolicy" none
          [("update_if_matching_parent_rev", Value.null)])
    ∧ unionFromDictBody (fun c2 w2 => compFromDict 0 envW c2 w2) conflictU
        (.obj [("bogus", Value.null)])
      = .ok (.uinst "WriteConflictPolicy" none
          [("update_if_matching_parent_rev", Value.null)]) := by
  have h := c8_union_decode_amended (fun c2 w2 => compFromDict 0 envW c2 w2) conflictU
  exact ⟨h.1 [] (by decide), h.2.1 "bogus" rfl, h.2.2 "bogus" Value.null rfl⟩

end Babel
